import Mathlib

/-!
Shallow embedding of the grading engine and tenant-scoped access-control
layer of the school-management backend (src/backend/server.py), together
with theorems settling the specification claims about it.

Numeric scores are embedded as rationals; Python's `round` builtin is
embedded as round-half-to-even (`pyRound`), `round(x, 2)` as `round2`.
-/

namespace SMS

/-- Python's builtin `round` on a numeric value: round to the nearest
integer, ties going to the even neighbour (round-half-to-even). -/
def pyRound (q : ℚ) : ℤ :=
  let f := ⌊q⌋
  let frac := q - (f : ℚ)
  if frac < 1/2 then f
  else if (1:ℚ)/2 < frac then f + 1
  else if f % 2 = 0 then f else f + 1

/-- Python's `round(x, 2)`: round to two decimal places. -/
def round2 (q : ℚ) : ℚ := (pyRound (q * 100) : ℚ) / 100

/-- One band of a grading scale: `{"min": .., "max": .., "grade": ..,
"domain": .., "points": ..}` in `GRADING_SCHEME`. -/
structure GradeBand where
  min : ℤ
  max : ℤ
  grade : String
  domain : String
  points : ℚ
deriving DecidableEq

/-- The general grading scheme (`GRADING_SCHEME` in server.py, lines 39-51):
eleven bands A+ … U covering 0-100. -/
def GRADING_SCHEME : List GradeBand := [
  ⟨90, 100, "A+", "Expert performance", 4.0⟩,
  ⟨85, 89, "A", "Highly Proficient performance", 3.8⟩,
  ⟨80, 84, "A-", "Proficient performance", 3.7⟩,
  ⟨75, 79, "B", "Satisfactory performance", 3.5⟩,
  ⟨70, 74, "B-", "Developing performance", 3.3⟩,
  ⟨65, 69, "C", "Passing performance", 3.2⟩,
  ⟨60, 64, "C-", "Passing performance", 2.8⟩,
  ⟨55, 59, "D", "Marginal performance", 2.6⟩,
  ⟨50, 54, "D-", "Below Average performance", 2.4⟩,
  ⟨40, 49, "E", "Frustration", 1.0⟩,
  ⟨0, 39, "U", "No participation", 0⟩]

/-- Result of a grade lookup: `{"grade": .., "domain": .., "points": ..}`. -/
structure GradeInfo where
  grade : String
  domain : String
  points : ℚ
deriving DecidableEq

/-- `get_grade_info` (server.py lines 82-88): round the score, scan
`GRADING_SCHEME` for the first band containing the rounded value, fall back
to the "U" info when none matches. -/
def get_grade_info (score : ℚ) : GradeInfo :=
  let rounded := pyRound score
  match GRADING_SCHEME.find? (fun s => decide (s.min ≤ rounded ∧ rounded ≤ s.max)) with
  | some s => ⟨s.grade, s.domain, s.points⟩
  | none => ⟨"U", "No participation", 0⟩

/-- `MHPS_WEIGHTS` (server.py lines 1119-1126): the fixed fractional
weights of the six assessment components. -/
structure MhpsWeights where
  homework : ℚ
  groupWork : ℚ
  project : ℚ
  quiz : ℚ
  midTerm : ℚ
  endOfTerm : ℚ

def MHPS_WEIGHTS : MhpsWeights :=
  { homework := 0.05, groupWork := 0.05, project := 0.10,
    quiz := 0.10, midTerm := 0.30, endOfTerm := 0.40 }

/-- One band of the MHPS grade scale. -/
structure MhpsBand where
  min : ℤ
  max : ℤ
  grade : String
  description : String
deriving DecidableEq

/-- `MHPS_GRADE_SCALE` (server.py lines 1129-1138): eight bands A+ … E. -/
def MHPS_GRADE_SCALE : List MhpsBand := [
  ⟨95, 100, "A+", "Excellent"⟩,
  ⟨90, 94, "A", "Very Good"⟩,
  ⟨80, 89, "B+", "Good"⟩,
  ⟨70, 79, "B", "Satisfactory"⟩,
  ⟨60, 69, "C+", "Satisfactory"⟩,
  ⟨50, 59, "C", "Needs Improvement"⟩,
  ⟨40, 49, "D", "Unsatisfactory"⟩,
  ⟨0, 39, "E", "Poor"⟩]

/-- Result of an MHPS grade lookup. -/
structure MhpsGradeInfo where
  grade : String
  description : String
deriving DecidableEq

/-- `get_mhps_grade` (server.py lines 1140-1148): `None` maps to dashes,
otherwise round and scan `MHPS_GRADE_SCALE`, falling back to "E". -/
def get_mhps_grade (score : Option ℚ) : MhpsGradeInfo :=
  match score with
  | none => ⟨"-", "-"⟩
  | some s =>
    let rounded := pyRound s
    match MHPS_GRADE_SCALE.find? (fun g => decide (g.min ≤ rounded ∧ rounded ≤ g.max)) with
    | some g => ⟨g.grade, g.description⟩
    | none => ⟨"E", "Poor"⟩

/-- `SubjectGrade` (server.py lines 234-245): the request model for one
subject, with optional flat score and six optional assessment components. -/
structure SubjectGrade where
  subject : String
  score : Option ℚ := none
  grade : Option String := none
  comment : Option String := some ""
  homework : Option ℚ := none
  groupWork : Option ℚ := none
  project : Option ℚ := none
  quiz : Option ℚ := none
  midTerm : Option ℚ := none
  endOfTerm : Option ℚ := none
deriving DecidableEq

/-- `calculate_mhps_weighted_score` (server.py lines 1150-1167): treat each
missing component as 0, combine with the fixed weights, round to 2 dp. -/
def calculate_mhps_weighted_score (subj : SubjectGrade) : ℚ :=
  let homework := subj.homework.getD 0
  let groupWork := subj.groupWork.getD 0
  let project := subj.project.getD 0
  let quiz := subj.quiz.getD 0
  let midTerm := subj.midTerm.getD 0
  let endOfTerm := subj.endOfTerm.getD 0
  let weighted :=
    homework * MHPS_WEIGHTS.homework +
    groupWork * MHPS_WEIGHTS.groupWork +
    project * MHPS_WEIGHTS.project +
    quiz * MHPS_WEIGHTS.quiz +
    midTerm * MHPS_WEIGHTS.midTerm +
    endOfTerm * MHPS_WEIGHTS.endOfTerm
  round2 weighted

/-- The `any([...])` test in `save_gradebook` (server.py lines 1177-1184):
a subject is processed in weighted (MHPS) mode iff any component is set. -/
def hasMhpsComponents (subj : SubjectGrade) : Bool :=
  subj.homework.isSome || subj.groupWork.isSome || subj.project.isSome ||
  subj.quiz.isSome || subj.midTerm.isSome || subj.endOfTerm.isSome

/-- A stored subject dict as appended to `subjects_with_grades` in
`save_gradebook` (server.py lines 1191-1216).  The weighted branch stores
the six components and no points/domain; the simple branch stores
points/domain and no components. -/
structure StoredSubject where
  subject : String
  score : ℚ
  grade : String
  comment : String
  points : Option ℚ := none
  domain : Option String := none
  homework : Option ℚ := none
  groupWork : Option ℚ := none
  project : Option ℚ := none
  quiz : Option ℚ := none
  midTerm : Option ℚ := none
  endOfTerm : Option ℚ := none
deriving DecidableEq

/-- One iteration of the `for subj in entry.subjects` loop of
`save_gradebook` (server.py lines 1175-1219), mapping a submitted subject
to the stored dict. -/
def processSubject (subj : SubjectGrade) : StoredSubject :=
  if hasMhpsComponents subj then
    let weighted_score := calculate_mhps_weighted_score subj
    let mhps_grade := get_mhps_grade (some weighted_score)
    { subject := subj.subject, score := weighted_score, grade := mhps_grade.grade,
      comment := subj.comment.getD "",
      homework := subj.homework, groupWork := subj.groupWork, project := subj.project,
      quiz := subj.quiz, midTerm := subj.midTerm, endOfTerm := subj.endOfTerm }
  else
    let score := subj.score.getD 0
    let grade_info := get_grade_info score
    { subject := subj.subject, score := score, grade := grade_info.grade,
      points := some grade_info.points, domain := some grade_info.domain,
      comment := subj.comment.getD "" }

/-- The full loop of `save_gradebook`: accumulates the stored subject list,
`total_score` and `subject_count` exactly as the source loop does. -/
def gradeLoop (subjects : List SubjectGrade) : List StoredSubject × ℚ × ℕ :=
  subjects.foldl
    (fun acc subj =>
      let stored := processSubject subj
      (acc.1 ++ [stored], acc.2.1 + stored.score, acc.2.2 + 1))
    ([], 0, 0)

/-- A stored gradebook document (the dict built in server.py lines
1233-1255). -/
structure GDoc where
  id : String
  student_id : String
  class_id : String
  school_code : String
  «term» : String
  academic_year : String
  subjects : List StoredSubject
  overall_score : ℚ
  overall_grade : String
  overall_points : ℚ
  overall_domain : String
  graded_by : String
  created_at : String
  updated_at : String
deriving DecidableEq

/-- The request body `GradebookEntry` (server.py lines 247-252). -/
structure GradebookEntryIn where
  student_id : String
  class_id : String
  «term» : String
  academic_year : String
  subjects : List SubjectGrade
deriving DecidableEq

/-- A stored user document (the dicts in the `users` collection; see the
superuser bootstrap, server.py lines 519-528, and `create_user`).  The
route handlers consume the resolved `current_user` in this same shape. -/
structure UserDoc where
  id : String
  username : String
  name : String
  role : String
  school_code : String
  permissions : List String
  password_hash : String
  created_at : String
deriving DecidableEq

/-- The key filter used by `save_gradebook`'s `find_one` (server.py lines
1226-1231): `(student_id, term, academic_year, school_code)`. -/
def keyMatch (e : GradebookEntryIn) (sc : String) (d : GDoc) : Bool :=
  d.student_id == e.student_id && d.term == e.term &&
  d.academic_year == e.academic_year && d.school_code == sc

/-- Mongo `update_one` on a list store: rewrite the first document
satisfying the filter, leave everything else unchanged. -/
def updateFirst (p : GDoc → Bool) (f : GDoc → GDoc) : List GDoc → List GDoc
  | [] => []
  | d :: ds => if p d then f d :: ds else d :: updateFirst p f ds

/-- The `doc` dict assembled by `save_gradebook` (server.py lines
1171-1246) before the upsert decision: subjects processed by the loop,
`overall_score` the simple mean of their scores (0 when no subjects),
rounded to 2 decimals and banded by `get_grade_info`. -/
def buildGradebookDoc (entry : GradebookEntryIn) (user : UserDoc)
    (now newId : String) : GDoc :=
  let loopOut := gradeLoop entry.subjects
  let subjects_with_grades := loopOut.1
  let total_score := loopOut.2.1
  let subject_count := loopOut.2.2
  let overall_score := if subject_count > 0 then total_score / (subject_count : ℚ) else 0
  let overall_info := get_grade_info overall_score
  { id := newId, student_id := entry.student_id, class_id := entry.class_id,
    school_code := user.school_code, term := entry.term,
    academic_year := entry.academic_year, subjects := subjects_with_grades,
    overall_score := round2 overall_score, overall_grade := overall_info.grade,
    overall_points := overall_info.points, overall_domain := overall_info.domain,
    graded_by := user.id, created_at := now, updated_at := now }

/-- `save_gradebook` (server.py lines 1169-1257) as a pure state
transformer on the gradebook collection.  `now` stands for the request
timestamp and `newId` for the freshly drawn uuid.  The `update_one` call
`$set`s every field of the new dict except `id` and `created_at`, which
therefore survive from the stored document. -/
def save_gradebook (store : List GDoc) (entry : GradebookEntryIn)
    (user : UserDoc) (now newId : String) : List GDoc × GDoc :=
  let base := buildGradebookDoc entry user now newId
  match store.find? (keyMatch entry user.school_code) with
  | some existing =>
    let doc := { base with id := existing.id, created_at := existing.created_at }
    (updateFirst (fun d => d.id == existing.id)
      (fun d => { base with id := d.id, created_at := d.created_at }) store, doc)
  | none =>
    (store ++ [base], base)

/-- An `HTTPException(status_code=.., detail=..)` raised by a handler. -/
structure HTTPException where
  status_code : ℕ
  detail : String
deriving DecidableEq

/-- A stored school document (see `create_school` and the bootstrap school,
server.py lines 504-514), restricted to the fields the login flow reads. -/
structure SchoolDoc where
  id : String
  school_code : String
  name : String
  is_active : Bool
deriving DecidableEq

/-- Models the external bcrypt collaborator (spec section 6):
`verify(plain, digest) -> bool`.  Digests are modeled as the plaintext
itself, so verification is string equality. -/
def verify_password (plain_password hashed_password : String) : Bool :=
  plain_password == hashed_password

/-- The claims dict passed to `create_access_token` (and recovered by
`jwt.decode` in `get_current_user`): `{sub, role, school_code}`.  The
expiry claim and the signature are the token collaborator's concern and
are modeled by `DecodeResult` below. -/
structure TokenData where
  sub : Option String
  role : String
  school_code : Option String
deriving DecidableEq

/-- Outcome of `jwt.decode` on a presented bearer token: the verified
claims, or the `ExpiredSignatureError` / `PyJWTError` cases. -/
inductive DecodeResult where
  | ok (payload : TokenData)
  | expired
  | invalid
deriving DecidableEq

/-- The `UserResponse` model returned by `login` (server.py lines 565-576
and 587-598). -/
structure UserResponse where
  id : String
  username : String
  name : String
  role : String
  school_code : String
  permissions : List String
  created_at : String
deriving DecidableEq

/-- The `TokenResponse` returned by `login`; the access token is modeled
by its signed claims. -/
structure TokenResponse where
  access_token : TokenData
  user : UserResponse
deriving DecidableEq

/-- The `UserLogin` request body. -/
structure Credentials where
  username : String
  password : String
  school_code : String
deriving DecidableEq

/-- Python's `str.upper()` on the (ASCII) school codes, modeled
character-wise.  (`String.toUpper` itself is defined by well-founded
recursion, which blocks kernel evaluation.) -/
def strUpper (s : String) : String := ⟨s.data.map Char.toUpper⟩

instance {ε α : Type} [DecidableEq ε] [DecidableEq α] :
    DecidableEq (Except ε α) := fun x y =>
  match x, y with
  | .error e1, .error e2 =>
    if h : e1 = e2 then isTrue (by rw [h])
    else isFalse (by intro hc; cases hc; exact h rfl)
  | .ok a1, .ok a2 =>
    if h : a1 = a2 then isTrue (by rw [h])
    else isFalse (by intro hc; cases hc; exact h rfl)
  | .error _, .ok _ => isFalse (by intro hc; cases hc)
  | .ok _, .error _ => isFalse (by intro hc; cases hc)

/-- The database state consumed by the auth routes. -/
structure AuthState where
  schools : List SchoolDoc
  users : List UserDoc
deriving DecidableEq

/-- `login` (server.py lines 533-598) as a pure function of the database
state.  It performs no database write, so the state passes through
unchanged.  The requested school code is uppercased; the school must exist
and be active; a user scoped to the requested school is tried first, and
only when none exists a superuser with that username may enter the
requested school, receiving a token whose `school_code` claim is the
requested school. -/
def login (st : AuthState) (credentials : Credentials) :
    AuthState × Except HTTPException TokenResponse :=
  let school_code := strUpper credentials.school_code
  match st.schools.find? (fun s => s.school_code == school_code && s.is_active) with
  | none => (st, .error ⟨401, "Invalid school code"⟩)
  | some _ =>
    match st.users.find? (fun u =>
        u.username == credentials.username && u.school_code == school_code) with
    | some user =>
      if verify_password credentials.password user.password_hash then
        let token : TokenData :=
          { sub := some user.id, role := user.role, school_code := some school_code }
        let resp : UserResponse :=
          { id := user.id, username := user.username, name := user.name,
            role := user.role, school_code := user.school_code,
            permissions := user.permissions, created_at := user.created_at }
        (st, .ok { access_token := token, user := resp })
      else (st, .error ⟨401, "Invalid credentials"⟩)
    | none =>
      match st.users.find? (fun u =>
          u.username == credentials.username && u.role == "superuser") with
      | some superuser =>
        if verify_password credentials.password superuser.password_hash then
          let token : TokenData :=
            { sub := some superuser.id, role := superuser.role,
              school_code := some school_code }
          let resp : UserResponse :=
            { id := superuser.id, username := superuser.username,
              name := superuser.name, role := superuser.role,
              school_code := school_code,
              permissions := superuser.permissions,
              created_at := superuser.created_at }
          (st, .ok { access_token := token, user := resp })
        else (st, .error ⟨401, "Invalid credentials"⟩)
      | none => (st, .error ⟨401, "Invalid credentials"⟩)

/-- `get_current_user` (server.py lines 445-466): decode the token, look
up the stored user by the `sub` claim, and, when the token carries a
non-empty `school_code` claim, override the stored home school with it
for this principal only. -/
def get_current_user (users : List UserDoc) (decoded : DecodeResult) :
    Except HTTPException UserDoc :=
  match decoded with
  | .expired => .error ⟨401, "Token expired"⟩
  | .invalid => .error ⟨401, "Invalid token"⟩
  | .ok payload =>
    match payload.sub with
    | none => .error ⟨401, "Invalid token"⟩
    | some user_id =>
      match users.find? (fun u => u.id == user_id) with
      | none => .error ⟨401, "User not found"⟩
      | some user =>
        match payload.school_code with
        | some token_school_code =>
          if token_school_code == "" then .ok user
          else .ok { user with school_code := token_school_code }
        | none => .ok user

/-- The checker produced by `require_roles(allowed_roles)` (server.py
lines 468-476). -/
def require_roles (allowed_roles : List String) (current_user : UserDoc) :
    Except HTTPException UserDoc :=
  if current_user.role == "superuser" then .ok current_user
  else if !(allowed_roles.contains current_user.role) then
    .error ⟨403, "Insufficient permissions"⟩
  else .ok current_user

/-- The checker produced by `require_permission(permission)` (server.py
lines 478-487). -/
def require_permission (permission : String) (current_user : UserDoc) :
    Except HTTPException UserDoc :=
  if current_user.role == "superuser" then .ok current_user
  else if !(current_user.permissions.contains permission) then
    .error ⟨403, "Permission denied: " ++ permission⟩
  else .ok current_user

/-- A stored student document, restricted to the fields the report-card
routes read. -/
structure StudentDoc where
  id : String
  school_code : String
  class_id : Option String
  parent_id : Option String
  date_of_birth : String
deriving DecidableEq

/-- A stored class document, restricted to the fields the report-card
routes read. -/
structure ClassDoc where
  id : String
  school_code : String
deriving DecidableEq

/-- A stored attendance record. -/
structure AttendanceDoc where
  id : String
  school_code : String
  student_id : String
  class_id : String
  date : String
  status : String
deriving DecidableEq

/-- A stored social-skills document. -/
structure SocialDoc where
  id : String
  school_code : String
  student_id : String
  «term» : String
  academic_year : String
  skills : List (String × String)
deriving DecidableEq

/-- The `attendance_summary` dict built by the report-card routes
(server.py lines 1331-1337 and 1384-1390). -/
structure AttendanceSummary where
  total_days : ℕ
  present : ℕ
  absent : ℕ
  late : ℕ
  excused : ℕ
deriving DecidableEq

def attendanceSummaryOf (records : List AttendanceDoc) : AttendanceSummary :=
  { total_days := records.length,
    present := (records.filter (fun a => a.status == "present")).length,
    absent := (records.filter (fun a => a.status == "absent")).length,
    late := (records.filter (fun a => a.status == "late")).length,
    excused := (records.filter (fun a => a.status == "excused")).length }

/-- The database state consumed by the report-card routes. -/
structure ReportState where
  students : List StudentDoc
  classes : List ClassDoc
  gradebook : List GDoc
  attendance : List AttendanceDoc
  social_skills : List SocialDoc
deriving DecidableEq

/-- The payload returned by `get_student_report_card`; `grades` is `none`
exactly when the route returned the `gradebook or \x7b\x7d` empty object. -/
structure StudentReportCard where
  student : StudentDoc
  student_age : ℤ
  grades : Option GDoc
  attendance_summary : AttendanceSummary
  class_info : Option ClassDoc
  «term» : String
  academic_year : String
deriving DecidableEq

/-- `get_student_report_card` (server.py lines 1298-1349).  `age_of`
stands for `calculate_age`, which depends on the current date (an
external collaborator). -/
def get_student_report_card (st : ReportState) (current_user : UserDoc)
    (student_id «term» academic_year : String) (age_of : String → ℤ) :
    Except HTTPException StudentReportCard :=
  match st.students.find? (fun s =>
      s.id == student_id && s.school_code == current_user.school_code) with
  | none => .error ⟨404, "Student not found"⟩
  | some student =>
    if current_user.role == "parent" && student.parent_id != some current_user.id then
      .error ⟨403, "Access denied"⟩
    else
      let gradebook := st.gradebook.find? (fun g =>
        g.student_id == student_id && g.term == «term» &&
        g.academic_year == academic_year && g.school_code == current_user.school_code)
      let class_info :=
        match student.class_id with
        | some cid => st.classes.find? (fun c =>
            c.id == cid && c.school_code == current_user.school_code)
        | none => none
      let attendance_records := st.attendance.filter (fun a =>
        a.student_id == student_id && a.school_code == current_user.school_code)
      .ok { student := student, student_age := age_of student.date_of_birth,
            grades := gradebook,
            attendance_summary := attendanceSummaryOf attendance_records,
            class_info := class_info, «term» := «term»,
            academic_year := academic_year }

/-- One per-student card assembled inside `get_class_report_cards`
(server.py lines 1369-1405). -/
structure ClassCard where
  student : StudentDoc
  student_age : ℤ
  grades : Option GDoc
  attendance_summary : AttendanceSummary
  social_skills : List (String × String)
deriving DecidableEq

/-- Builds the card of one student in the class loop. -/
def mkClassCard (st : ReportState) (current_user : UserDoc)
    («term» academic_year : String) (age_of : String → ℤ)
    (student : StudentDoc) : ClassCard :=
  { student := student, student_age := age_of student.date_of_birth,
    grades := st.gradebook.find? (fun g =>
      g.student_id == student.id && g.term == «term» &&
      g.academic_year == academic_year && g.school_code == current_user.school_code),
    attendance_summary := attendanceSummaryOf (st.attendance.filter (fun a =>
      a.student_id == student.id && a.school_code == current_user.school_code)),
    social_skills :=
      match st.social_skills.find? (fun s =>
          s.student_id == student.id && s.term == «term» &&
          s.academic_year == academic_year &&
          s.school_code == current_user.school_code) with
      | some s => s.skills
      | none => [] }

/-- The sort key of the class ranking (server.py line 1407):
`x["grades"].get("overall_score", 0) if x["grades"] else 0`. -/
def cardScore (c : ClassCard) : ℚ :=
  match c.grades with
  | some g => g.overall_score
  | none => 0

/-- `report_cards.sort(key=.., reverse=True)` (server.py line 1407):
Python's list sort is a stable mergesort, so with `reverse=True` it yields
the unique stable descending-by-key reordering, which is what
`List.mergeSort` with the reflexive-total descending comparison computes. -/
def sortReportCards (cards : List ClassCard) : List ClassCard :=
  cards.mergeSort (fun a b => decide (cardScore b ≤ cardScore a))

/-- The `for idx, card in enumerate(report_cards): card["position"] = idx + 1`
loop (server.py lines 1409-1410): pair each card with its 1-based position. -/
def assignPositions (cards : List ClassCard) : List (ℕ × ClassCard) :=
  cards.enum.map (fun p => (p.1 + 1, p.2))

/-- The payload returned by `get_class_report_cards`. -/
structure ClassReport where
  class_info : ClassDoc
  «term» : String
  academic_year : String
  total_students : ℕ
  report_cards : List (ℕ × ClassCard)
deriving DecidableEq

/-- `get_class_report_cards` (server.py lines 1351-1425). -/
def get_class_report_cards (st : ReportState) (current_user : UserDoc)
    (class_id «term» academic_year : String) (age_of : String → ℤ) :
    Except HTTPException ClassReport :=
  match st.classes.find? (fun c =>
      c.id == class_id && c.school_code == current_user.school_code) with
  | none => .error ⟨404, "Class not found"⟩
  | some class_info =>
    let students := st.students.filter (fun s =>
      s.class_id == some class_id && s.school_code == current_user.school_code)
    let report_cards := students.map (mkClassCard st current_user «term» academic_year age_of)
    .ok { class_info := class_info, «term» := «term»,
          academic_year := academic_year, total_students := students.length,
          report_cards := assignPositions (sortReportCards report_cards) }

/-- Modelled from the spec (section 4.1): half-up rounding to the nearest
integer, the rounding mode the spec names for banding lookup. -/
def halfUpRound (q : ℚ) : ℤ := ⌊q + 1/2⌋

/-- Modelled from the spec (section 4.1): banding with half-up rounding,
for comparison with the source's `get_grade_info`. -/
def getGradeInfoHalfUp (score : ℚ) : GradeInfo :=
  let rounded := halfUpRound score
  match GRADING_SCHEME.find? (fun s => decide (s.min ≤ rounded ∧ rounded ≤ s.max)) with
  | some s => ⟨s.grade, s.domain, s.points⟩
  | none => ⟨"U", "No participation", 0⟩

/-- Modelled from the spec (section 4.2): the weighted-score contract as a
function of the six optional components, each missing one treated as 0,
weighted by the fixed percentages, summed and rounded to 2 decimals. -/
def weightedScoreSpec (homework groupWork project quiz midTerm endOfTerm : Option ℚ) : ℚ :=
  round2 (homework.getD 0 * (5/100) + groupWork.getD 0 * (5/100) +
    project.getD 0 * (10/100) + quiz.getD 0 * (10/100) +
    midTerm.getD 0 * (30/100) + endOfTerm.getD 0 * (40/100))

/-- A sample teacher principal used to instantiate theorems at concrete
inputs. -/
def tTeacher : UserDoc :=
  { id := "u-t", username := "teach", name := "Teacher", role := "teacher",
    school_code := "AAAA", permissions := ["manage_grades", "generate_reports"],
    password_hash := "pw", created_at := "t0" }

/-- A sample gradebook submission with one simple-mode subject whose score
is 150, above every band of the scale. -/
def tEntry150 : GradebookEntryIn :=
  { student_id := "s1", class_id := "c1", «term» := "Term 1",
    academic_year := "2024-2025",
    subjects := [{ subject := "Mathematics", score := some 150 }] }

/-- A second sample submission for the same key as `tEntry150` (same
student, term, year) with a different subject list. -/
def tEntry80 : GradebookEntryIn :=
  { student_id := "s1", class_id := "c1", «term» := "Term 1",
    academic_year := "2024-2025",
    subjects := [{ subject := "Mathematics", score := some 80 },
                 { subject := "Science", score := some 60 }] }

/-- A sample submission with an empty subject list. -/
def tEntryEmpty : GradebookEntryIn :=
  { student_id := "s2", class_id := "c1", «term» := "Term 1",
    academic_year := "2024-2025", subjects := [] }

/-- A sample teacher principal in a second school. -/
def tTeacherB : UserDoc :=
  { id := "u-t2", username := "teach2", name := "Teacher B", role := "teacher",
    school_code := "BBBB", permissions := ["manage_grades"],
    password_hash := "pw2", created_at := "t0" }

/-- A sample superuser whose home school is the bootstrap school. -/
def tSuper : UserDoc :=
  { id := "u-s", username := "root", name := "Root", role := "superuser",
    school_code := "JTECH", permissions := ["manage_schools"],
    password_hash := "rootpw", created_at := "t0" }

/-- A sample active school distinct from the superuser's home school. -/
def tSchoolB : SchoolDoc :=
  { id := "sch-b", school_code := "BBBB", name := "B School", is_active := true }

/-- A user of school BBBB whose username collides with the superuser's. -/
def tUserBob : UserDoc :=
  { id := "u-b", username := "root", name := "Bob", role := "teacher",
    school_code := "BBBB", permissions := [], password_hash := "otherpw",
    created_at := "t0" }

/-- Auth state where school BBBB holds a user with the superuser's
username but a different password. -/
def tStateCollision : AuthState :=
  { schools := [tSchoolB], users := [tUserBob, tSuper] }

/-- Auth state with no username collision in school BBBB. -/
def tStateClean : AuthState :=
  { schools := [tSchoolB], users := [tSuper] }

/-- The superuser's credentials presented against school BBBB. -/
def tCredsSuper : Credentials :=
  { username := "root", password := "rootpw", school_code := "BBBB" }

/-- A sample student owned by parent id "p1". -/
def tStudent : StudentDoc :=
  { id := "st1", school_code := "AAAA", class_id := some "c1",
    parent_id := some "p1", date_of_birth := "2015-01-01" }

/-- A parent principal whose user id differs from `tStudent`'s parent id. -/
def tParentOther : UserDoc :=
  { id := "p2", username := "par", name := "P", role := "parent",
    school_code := "AAAA", permissions := [], password_hash := "pw",
    created_at := "t0" }

/-- Report state holding just `tStudent` and no gradebook entries. -/
def tReportState : ReportState :=
  { students := [tStudent], classes := [], gradebook := [], attendance := [],
    social_skills := [] }

/-- Class-ranking fixtures: three students of one class. -/
def tStudentA : StudentDoc :=
  { id := "sa", school_code := "AAAA", class_id := some "c1",
    parent_id := none, date_of_birth := "2015-01-01" }

def tStudentB : StudentDoc :=
  { id := "sb", school_code := "AAAA", class_id := some "c1",
    parent_id := none, date_of_birth := "2015-01-01" }

def tStudentC : StudentDoc :=
  { id := "sc", school_code := "AAAA", class_id := some "c1",
    parent_id := none, date_of_birth := "2015-01-01" }

/-- A minimal stored gradebook document carrying a given overall score. -/
def tGB (sid : String) (score : ℚ) : GDoc :=
  { id := "g-" ++ sid, student_id := sid, class_id := "c1",
    school_code := "AAAA", «term» := "Term 1", academic_year := "2024-2025",
    subjects := [], overall_score := score, overall_grade := "",
    overall_points := 0, overall_domain := "", graded_by := "u-t",
    created_at := "t0", updated_at := "t0" }

def tClassDoc : ClassDoc := { id := "c1", school_code := "AAAA" }

/-- Report state for the ranking example: scores 70, 95, 95 in fetch
order. -/
def tClassState : ReportState :=
  { students := [tStudentA, tStudentB, tStudentC], classes := [tClassDoc],
    gradebook := [tGB "sa" 70, tGB "sb" 95, tGB "sc" 95],
    attendance := [], social_skills := [] }

/-- The card built for one of the ranking-example students. -/
def tCard (s : StudentDoc) (g : GDoc) : ClassCard :=
  { student := s, student_age := 9, grades := some g,
    attendance_summary := ⟨0, 0, 0, 0, 0⟩, social_skills := [] }

/-- The expected ranking payload: the two 95-scorers in fetch order at
positions 1 and 2, the 70-scorer at position 3. -/
def tClassRep : ClassReport :=
  { class_info := tClassDoc, «term» := "Term 1",
    academic_year := "2024-2025", total_students := 3,
    report_cards := [(1, tCard tStudentB (tGB "sb" 95)),
                     (2, tCard tStudentC (tGB "sc" 95)),
                     (3, tCard tStudentA (tGB "sa" 70))] }

/-- A simple-mode subject scored 85. -/
def tSubjSimple85 : SubjectGrade := { subject := "Mathematics", score := some 85 }

/-- A weighted-mode subject whose weighted score is 85. -/
def tSubjWeighted85 : SubjectGrade :=
  { subject := "Mathematics", homework := some 100, groupWork := some 100,
    project := some 100, quiz := some 100, midTerm := some 100,
    endOfTerm := some 62.5 }

/-- A submission with one simple-mode subject scored 85. -/
def tEntrySimple85 : GradebookEntryIn :=
  { student_id := "s1", class_id := "c1", «term» := "Term 1",
    academic_year := "2024-2025", subjects := [tSubjSimple85] }

/-- A submission with one weighted-mode subject whose weighted score is
85. -/
def tEntryWeighted85 : GradebookEntryIn :=
  { student_id := "s1", class_id := "c1", «term» := "Term 1",
    academic_year := "2024-2025", subjects := [tSubjWeighted85] }

/-! ## Helper lemmas -/

theorem pyRound_bounds (q : ℚ) (h0 : 0 ≤ q) (h1 : q ≤ 100) :
    0 ≤ pyRound q ∧ pyRound q ≤ 100 := by
  have hf0 : (0:ℤ) ≤ ⌊q⌋ := Int.floor_nonneg.mpr h0
  have hf1 : ⌊q⌋ ≤ 100 := by
    have h := Int.floor_le_floor h1
    have h100 : ⌊(100:ℚ)⌋ = 100 := by norm_num
    omega
  have hq : (⌊q⌋ : ℚ) ≤ q := Int.floor_le q
  simp only [pyRound]
  split_ifs with hc1 hc2 hc3
  · exact ⟨hf0, hf1⟩
  · constructor
    · omega
    · have h99 : ⌊q⌋ ≤ 99 := by
        by_contra hcon
        have he : ⌊q⌋ = 100 := by omega
        rw [he] at hc2
        have : q - (100:ℚ) ≤ 0 := by
          have : q ≤ (100:ℚ) := h1
          linarith
        norm_num at hc2
        linarith
      omega
  · exact ⟨hf0, hf1⟩
  · constructor
    · omega
    · have h99 : ⌊q⌋ ≤ 99 := by
        by_contra hcon
        have he : ⌊q⌋ = 100 := by omega
        rw [he] at hc1
        push_neg at hc1
        have : q - (100:ℚ) ≤ 0 := by linarith
        linarith
      omega

/-! ## C1 -/

set_option maxHeartbeats 4000000 in
/-- C1 (amended): grade banding first rounds the score to the nearest
integer with round-half-to-even (Python's `round`, not half-up) and then
selects the unique band of `GRADING_SCHEME` whose `[min, max]` range
contains the rounded value; for every score in `[0,100]` exactly one band
matches, and `band(89.2) = "A"`, `band(91.9) = "A+"`, `band(79.5) = "A-"`,
`band(74.4) = "B-"`. -/
theorem banding_half_even_unique_band :
    (∀ s : ℚ, 0 ≤ s → s ≤ 100 →
      ∃ b ∈ GRADING_SCHEME,
        (b.min ≤ pyRound s ∧ pyRound s ≤ b.max) ∧
        (∀ b2 ∈ GRADING_SCHEME, b2.min ≤ pyRound s → pyRound s ≤ b2.max → b2 = b) ∧
        get_grade_info s = ⟨b.grade, b.domain, b.points⟩) ∧
    (get_grade_info (89.2:ℚ)).grade = "A" ∧
    (get_grade_info (91.9:ℚ)).grade = "A+" ∧
    (get_grade_info (79.5:ℚ)).grade = "A-" ∧
    (get_grade_info (74.4:ℚ)).grade = "B-" := by
  refine ⟨?_, by with_unfolding_all decide, by with_unfolding_all decide,
    by with_unfolding_all decide, by with_unfolding_all decide⟩
  intro s h0 h1
  obtain ⟨hb0, hb1⟩ := pyRound_bounds s h0 h1
  simp only [get_grade_info]
  generalize hr : pyRound s = r at hb0 hb1 ⊢
  interval_cases r <;> with_unfolding_all decide

/-- C1 counterexample: the code's banding is not half-up rounding.  At
score 84.5 Python's `round` gives 84 (half-to-even) and the band "A-",
while half-up rounding gives 85 and the band "A". -/
theorem banding_not_half_up_at_84_5 :
    pyRound (84.5:ℚ) = 84 ∧ halfUpRound (84.5:ℚ) = 85 ∧
    (get_grade_info (84.5:ℚ)).grade = "A-" ∧
    (getGradeInfoHalfUp (84.5:ℚ)).grade = "A" ∧
    get_grade_info (84.5:ℚ) ≠ getGradeInfoHalfUp (84.5:ℚ) := by
  with_unfolding_all decide

/-- Witness for `banding_half_even_unique_band` at the concrete score
89.2. -/
theorem banding_half_even_unique_band_witness :
    ∃ b ∈ GRADING_SCHEME,
      (b.min ≤ pyRound (89.2:ℚ) ∧ pyRound (89.2:ℚ) ≤ b.max) ∧
      (∀ b2 ∈ GRADING_SCHEME,
        b2.min ≤ pyRound (89.2:ℚ) → pyRound (89.2:ℚ) ≤ b2.max → b2 = b) ∧
      get_grade_info (89.2:ℚ) = ⟨b.grade, b.domain, b.points⟩ :=
  banding_half_even_unique_band.1 (89.2:ℚ) (by norm_num) (by norm_num)

/-! ## C2 -/

/-- C2: the weighted-score calculation is a pure function of the six
optional component scores, each missing component treated as 0, each
multiplied by its fixed weight (5%, 5%, 10%, 10%, 30%, 40%), summed and
rounded to 2 decimal places; with all six components 100 the result is
100, with all six missing it is 0. -/
theorem weighted_score_formula_endpoints :
    (∀ subj : SubjectGrade,
      calculate_mhps_weighted_score subj =
        weightedScoreSpec subj.homework subj.groupWork subj.project
          subj.quiz subj.midTerm subj.endOfTerm) ∧
    calculate_mhps_weighted_score
      { subject := "S", homework := some 100, groupWork := some 100,
        project := some 100, quiz := some 100, midTerm := some 100,
        endOfTerm := some 100 } = 100 ∧
    calculate_mhps_weighted_score { subject := "S" } = 0 := by
  refine ⟨?_, by with_unfolding_all decide, by with_unfolding_all decide⟩
  intro subj
  simp only [calculate_mhps_weighted_score, weightedScoreSpec, MHPS_WEIGHTS]
  norm_num

/-! ## C10 -/

/-- C10: any score whose rounded value falls outside `[0,100]` gets the
fallback `{grade "U", domain "No participation", points 0}` rather than an
error, and this is reachable through gradebook save: a simple-mode subject
submitted with score 150 is stored with score 150 and grade "U", and the
entry's overall grade is "U". -/
theorem out_of_range_scores_band_U :
    (∀ s : ℚ, (pyRound s < 0 ∨ 100 < pyRound s) →
      get_grade_info s = ⟨"U", "No participation", 0⟩) ∧
    ((save_gradebook [] tEntry150 tTeacher "t1" "g1").2.subjects.map
      (fun x => (x.score, x.grade))) = [(150, "U")] ∧
    (save_gradebook [] tEntry150 tTeacher "t1" "g1").2.overall_grade = "U" := by
  refine ⟨?_, by with_unfolding_all decide, by with_unfolding_all decide⟩
  intro s h
  have hnone : GRADING_SCHEME.find?
      (fun b => decide (b.min ≤ pyRound s ∧ pyRound s ≤ b.max)) = none := by
    rw [List.find?_eq_none]
    intro b hb
    fin_cases hb <;> simp <;> omega
  simp only [get_grade_info, hnone]

/-- Witness for `out_of_range_scores_band_U` at the concrete scores 101
and -1. -/
theorem out_of_range_scores_band_U_witness :
    get_grade_info (101:ℚ) = ⟨"U", "No participation", 0⟩ ∧
    get_grade_info (-1:ℚ) = ⟨"U", "No participation", 0⟩ :=
  ⟨out_of_range_scores_band_U.1 101 (Or.inr (by with_unfolding_all decide)),
   out_of_range_scores_band_U.1 (-1) (Or.inl (by with_unfolding_all decide))⟩

/-! ## Store helper lemmas -/

theorem updateFirst_length (p : GDoc → Bool) (f : GDoc → GDoc) :
    ∀ l : List GDoc, (updateFirst p f l).length = l.length
  | [] => rfl
  | d :: ds => by
    simp only [updateFirst]
    split_ifs <;> simp [updateFirst_length p f ds]

theorem countP_updateFirst (p q : GDoc → Bool) (f : GDoc → GDoc) :
    ∀ l : List GDoc, (∀ d ∈ l, p d = true → q (f d) = q d) →
      (updateFirst p f l).countP q = l.countP q
  | [], _ => rfl
  | d :: ds, h => by
    simp only [updateFirst]
    split_ifs with hp
    · simp only [List.countP_cons, h d (List.mem_cons_self d ds) hp]
    · simp only [List.countP_cons,
        countP_updateFirst p q f ds (fun x hx hpx => h x (List.mem_cons_of_mem d hx) hpx)]

theorem updateFirst_append_left (p : GDoc → Bool) (f : GDoc → GDoc)
    (l2 : List GDoc) :
    ∀ l1 : List GDoc, (∀ d ∈ l1, p d = false) →
      updateFirst p f (l1 ++ l2) = l1 ++ updateFirst p f l2
  | [], _ => rfl
  | d :: ds, h => by
    have hd : p d = false := h d (List.mem_cons_self d ds)
    simp only [List.cons_append, updateFirst, hd]
    simp only [Bool.false_eq_true, if_false, List.cons.injEq, true_and]
    exact updateFirst_append_left p f l2 ds
      (fun x hx => h x (List.mem_cons_of_mem d hx))

theorem keyMatch_congr (e1 e2 : GradebookEntryIn) (sc : String)
    (hs : e2.student_id = e1.student_id) (ht : e2.term = e1.term)
    (hy : e2.academic_year = e1.academic_year) :
    keyMatch e2 sc = keyMatch e1 sc := by
  funext d
  simp [keyMatch, hs, ht, hy]

theorem keyMatch_buildGradebookDoc (e : GradebookEntryIn) (u : UserDoc)
    (now newId : String) :
    keyMatch e u.school_code (buildGradebookDoc e u now newId) = true := by
  simp [keyMatch, buildGradebookDoc]

theorem save_gradebook_of_find_none (store : List GDoc)
    (e : GradebookEntryIn) (u : UserDoc) (now newId : String)
    (h : store.find? (keyMatch e u.school_code) = none) :
    save_gradebook store e u now newId =
      (store ++ [buildGradebookDoc e u now newId], buildGradebookDoc e u now newId) := by
  simp [save_gradebook, h]

theorem save_gradebook_of_find_some (store : List GDoc)
    (e : GradebookEntryIn) (u : UserDoc) (now newId : String)
    (existing : GDoc)
    (h : store.find? (keyMatch e u.school_code) = some existing) :
    save_gradebook store e u now newId =
      (updateFirst (fun d => d.id == existing.id)
        (fun d => { buildGradebookDoc e u now newId with
          id := d.id, created_at := d.created_at }) store,
       { buildGradebookDoc e u now newId with
         id := existing.id, created_at := existing.created_at }) := by
  simp [save_gradebook, h]

theorem gradeLoop_go (l : List SubjectGrade) :
    ∀ acc : List StoredSubject × ℚ × ℕ,
      l.foldl (fun acc subj =>
          let stored := processSubject subj
          (acc.1 ++ [stored], acc.2.1 + stored.score, acc.2.2 + 1)) acc =
        (acc.1 ++ l.map processSubject,
         acc.2.1 + (l.map (fun s => (processSubject s).score)).sum,
         acc.2.2 + l.length) := by
  induction l with
  | nil => intro acc; simp
  | cons s ss ih =>
    intro acc
    simp only [List.foldl_cons, List.map_cons, List.sum_cons, List.length_cons]
    rw [ih]
    simp only [List.append_assoc, List.singleton_append, Prod.mk.injEq]
    refine ⟨trivial, by ring, by omega⟩

theorem gradeLoop_spec (l : List SubjectGrade) :
    gradeLoop l =
      (l.map processSubject,
       (l.map (fun s => (processSubject s).score)).sum,
       l.length) := by
  unfold gradeLoop
  rw [gradeLoop_go]
  simp

theorem save_gradebook_snd_subjects (store : List GDoc) (e : GradebookEntryIn)
    (u : UserDoc) (now nid : String) :
    (save_gradebook store e u now nid).2.subjects =
      (buildGradebookDoc e u now nid).subjects := by
  simp only [save_gradebook]
  split <;> rfl

theorem save_gradebook_snd_overall_score (store : List GDoc)
    (e : GradebookEntryIn) (u : UserDoc) (now nid : String) :
    (save_gradebook store e u now nid).2.overall_score =
      (buildGradebookDoc e u now nid).overall_score := by
  simp only [save_gradebook]
  split <;> rfl

theorem save_gradebook_snd_overall_grade (store : List GDoc)
    (e : GradebookEntryIn) (u : UserDoc) (now nid : String) :
    (save_gradebook store e u now nid).2.overall_grade =
      (buildGradebookDoc e u now nid).overall_grade := by
  simp only [save_gradebook]
  split <;> rfl

theorem save_gradebook_snd_overall_points (store : List GDoc)
    (e : GradebookEntryIn) (u : UserDoc) (now nid : String) :
    (save_gradebook store e u now nid).2.overall_points =
      (buildGradebookDoc e u now nid).overall_points := by
  simp only [save_gradebook]
  split <;> rfl

theorem save_gradebook_snd_overall_domain (store : List GDoc)
    (e : GradebookEntryIn) (u : UserDoc) (now nid : String) :
    (save_gradebook store e u now nid).2.overall_domain =
      (buildGradebookDoc e u now nid).overall_domain := by
  simp only [save_gradebook]
  split <;> rfl

/-! ## C3 -/

set_option maxHeartbeats 1000000 in
/-- C3: the gradebook store keeps at most one entry per key
`(student_id, term, academic_year, school_code)`.  A save over an existing
entry overwrites it in place — the response keeps the existing id and
`created_at`, sets `updated_at` to the new timestamp, and the store does
not grow; a save with no existing entry creates a document under the fresh
id; and after two saves for the same key the store holds exactly one
matching entry, equal to the second save's document except for the first
save's id and `created_at`. -/
theorem gradebook_upsert_unique
    (store : List GDoc) (e1 e2 : GradebookEntryIn) (user : UserDoc)
    (now1 now2 id1 id2 : String)
    (hids : (store.map (fun d => d.id)).Nodup)
    (hatmost : store.countP (keyMatch e1 user.school_code) ≤ 1)
    (hfresh : ∀ d ∈ store, d.id ≠ id1)
    (hs : e2.student_id = e1.student_id) (ht : e2.term = e1.term)
    (hy : e2.academic_year = e1.academic_year) :
    ((save_gradebook store e1 user now1 id1).1.countP
        (keyMatch e1 user.school_code) = 1) ∧
    (∀ existing, store.find? (keyMatch e1 user.school_code) = some existing →
      (save_gradebook store e1 user now1 id1).2.id = existing.id ∧
      (save_gradebook store e1 user now1 id1).2.created_at = existing.created_at ∧
      (save_gradebook store e1 user now1 id1).2.updated_at = now1 ∧
      (save_gradebook store e1 user now1 id1).1.length = store.length) ∧
    (store.find? (keyMatch e1 user.school_code) = none →
      (save_gradebook store e1 user now1 id1).2.id = id1 ∧
      (save_gradebook store e1 user now1 id1).2.created_at = now1 ∧
      (save_gradebook store e1 user now1 id1).1 =
        store ++ [(save_gradebook store e1 user now1 id1).2]) ∧
    (store.countP (keyMatch e1 user.school_code) = 0 →
      (save_gradebook (save_gradebook store e1 user now1 id1).1 e2 user now2 id2).1.countP
        (keyMatch e2 user.school_code) = 1 ∧
      (save_gradebook (save_gradebook store e1 user now1 id1).1 e2 user now2 id2).1.find?
        (keyMatch e2 user.school_code) =
        some (save_gradebook (save_gradebook store e1 user now1 id1).1 e2 user now2 id2).2 ∧
      (save_gradebook (save_gradebook store e1 user now1 id1).1 e2 user now2 id2).2.subjects =
        (gradeLoop e2.subjects).1 ∧
      (save_gradebook (save_gradebook store e1 user now1 id1).1 e2 user now2 id2).2.overall_score =
        (buildGradebookDoc e2 user now2 id2).overall_score ∧
      (save_gradebook (save_gradebook store e1 user now1 id1).1 e2 user now2 id2).2.id = id1 ∧
      (save_gradebook (save_gradebook store e1 user now1 id1).1 e2 user now2 id2).2.created_at
        = now1 ∧
      (save_gradebook (save_gradebook store e1 user now1 id1).1 e2 user now2 id2).2.updated_at
        = now2) := by
  have hkey2 : keyMatch e2 user.school_code = keyMatch e1 user.school_code :=
    keyMatch_congr e1 e2 user.school_code hs ht hy
  cases hfind : store.find? (keyMatch e1 user.school_code) with
  | none =>
    have hzero : store.countP (keyMatch e1 user.school_code) = 0 :=
      List.countP_eq_zero.mpr (List.find?_eq_none.mp hfind)
    rw [save_gradebook_of_find_none store e1 user now1 id1 hfind]
    refine ⟨?_, ?_, ?_, ?_⟩
    · simp [List.countP_append, hzero, List.countP_cons, keyMatch_buildGradebookDoc]
    · exact fun existing hex => Option.noConfusion hex
    · exact fun _ => ⟨rfl, rfl, rfl⟩
    · intro h0
      have hfind2 : ((store ++ [buildGradebookDoc e1 user now1 id1]).find?
          (keyMatch e2 user.school_code)) = some (buildGradebookDoc e1 user now1 id1) := by
        rw [hkey2, List.find?_append, hfind]
        simp [List.find?, keyMatch_buildGradebookDoc]
      rw [save_gradebook_of_find_some _ e2 user now2 id2 _ hfind2]
      have hb1id : (buildGradebookDoc e1 user now1 id1).id = id1 := rfl
      have hcond : ∀ d ∈ store,
          (d.id == (buildGradebookDoc e1 user now1 id1).id) = false := by
        intro d hd
        rw [hb1id]
        exact beq_eq_false_iff_ne.mpr (hfresh d hd)
      rw [updateFirst_append_left _ _ [buildGradebookDoc e1 user now1 id1] store hcond]
      have hsingle : updateFirst
          (fun d => d.id == (buildGradebookDoc e1 user now1 id1).id)
          (fun d => { buildGradebookDoc e2 user now2 id2 with
            id := d.id, created_at := d.created_at })
          [buildGradebookDoc e1 user now1 id1] =
          [{ buildGradebookDoc e2 user now2 id2 with
            id := (buildGradebookDoc e1 user now1 id1).id,
            created_at := (buildGradebookDoc e1 user now1 id1).created_at }] := by
        simp only [updateFirst, beq_self_eq_true, if_true]
      rw [hsingle]
      have hkeyb2 : keyMatch e2 user.school_code
          { buildGradebookDoc e2 user now2 id2 with
            id := (buildGradebookDoc e1 user now1 id1).id,
            created_at := (buildGradebookDoc e1 user now1 id1).created_at } = true := by
        simp [keyMatch, buildGradebookDoc]
      refine ⟨?_, ?_, rfl, rfl, rfl, rfl, rfl⟩
      · rw [List.countP_append, hkey2, hzero, List.countP_cons, List.countP_nil]
        rw [hkey2] at hkeyb2
        simp [hkeyb2]
      · rw [List.find?_append]
        rw [hkey2, hfind]
        simp [List.find?, keyMatch, buildGradebookDoc, hs, ht, hy]
  | some existing =>
    have hmem : existing ∈ store := List.mem_of_find?_eq_some hfind
    have hpred : keyMatch e1 user.school_code existing = true := List.find?_some hfind
    have hone : store.countP (keyMatch e1 user.school_code) = 1 := by
      have hpos : 0 < store.countP (keyMatch e1 user.school_code) :=
        List.countP_pos_iff.mpr ⟨existing, hmem, hpred⟩
      omega
    rw [save_gradebook_of_find_some store e1 user now1 id1 existing hfind]
    have hinj := List.inj_on_of_nodup_map hids
    refine ⟨?_, ?_, ?_, ?_⟩
    · rw [countP_updateFirst]
      · exact hone
      · intro d hd hpd
        have hdid : d.id = existing.id := by simpa using hpd
        have hde : d = existing := hinj hd hmem hdid
        have hnew : keyMatch e1 user.school_code
            { buildGradebookDoc e1 user now1 id1 with
              id := d.id, created_at := d.created_at } = true := by
          simp [keyMatch, buildGradebookDoc]
        rw [hnew, hde, hpred]
    · intro ex' hex'
      have hx : existing = ex' := by injection hex'
      subst hx
      exact ⟨rfl, rfl, rfl, updateFirst_length _ _ store⟩
    · exact fun h => Option.noConfusion h
    · intro h0
      rw [hone] at h0
      cases h0

/-- Witness for `gradebook_upsert_unique`: two saves for the same key on
an empty store leave exactly one matching entry, whose subjects are the
second save's and whose id is the first save's. -/
theorem gradebook_upsert_unique_witness :
    (save_gradebook (save_gradebook [] tEntry150 tTeacher "t1" "g1").1
        tEntry80 tTeacher "t2" "g2").1.countP
      (keyMatch tEntry80 tTeacher.school_code) = 1 ∧
    (save_gradebook (save_gradebook [] tEntry150 tTeacher "t1" "g1").1
        tEntry80 tTeacher "t2" "g2").2.subjects = (gradeLoop tEntry80.subjects).1 ∧
    (save_gradebook (save_gradebook [] tEntry150 tTeacher "t1" "g1").1
        tEntry80 tTeacher "t2" "g2").2.id = "g1" ∧
    (save_gradebook (save_gradebook [] tEntry150 tTeacher "t1" "g1").1
        tEntry80 tTeacher "t2" "g2").2.created_at = "t1" ∧
    (save_gradebook (save_gradebook [] tEntry150 tTeacher "t1" "g1").1
        tEntry80 tTeacher "t2" "g2").2.updated_at = "t2" :=
  have h := (gradebook_upsert_unique [] tEntry150 tEntry80 tTeacher "t1" "t2" "g1" "g2"
    (by simp) (by simp) (by simp) rfl rfl rfl).2.2.2 (by simp)
  ⟨h.1, h.2.2.1, h.2.2.2.2.1, h.2.2.2.2.2.1, h.2.2.2.2.2.2⟩

/-! ## C4 -/

/-- C4: for every save, the stored subjects are the processed submitted
subjects, and with a non-empty subject list the stored `overall_score` is
the plain mean of the per-subject scores (regardless of each subject's
mode) rounded to 2 decimals, while `overall_grade`, `overall_points` and
`overall_domain` band that mean; with an empty subject list the stored
`overall_score` is 0. -/
theorem overall_score_is_simple_mean
    (store : List GDoc) (e : GradebookEntryIn) (u : UserDoc) (now nid : String) :
    ((save_gradebook store e u now nid).2.subjects = e.subjects.map processSubject) ∧
    (e.subjects ≠ [] →
      (save_gradebook store e u now nid).2.overall_score =
        round2 ((e.subjects.map (fun s => (processSubject s).score)).sum /
          (e.subjects.length : ℚ)) ∧
      (save_gradebook store e u now nid).2.overall_grade =
        (get_grade_info ((e.subjects.map (fun s => (processSubject s).score)).sum /
          (e.subjects.length : ℚ))).grade ∧
      (save_gradebook store e u now nid).2.overall_points =
        (get_grade_info ((e.subjects.map (fun s => (processSubject s).score)).sum /
          (e.subjects.length : ℚ))).points ∧
      (save_gradebook store e u now nid).2.overall_domain =
        (get_grade_info ((e.subjects.map (fun s => (processSubject s).score)).sum /
          (e.subjects.length : ℚ))).domain) ∧
    (e.subjects = [] → (save_gradebook store e u now nid).2.overall_score = 0) := by
  refine ⟨?_, ?_, ?_⟩
  · rw [save_gradebook_snd_subjects]
    simp only [buildGradebookDoc, gradeLoop_spec]
  · intro hne
    have hpos : 0 < e.subjects.length := List.length_pos.mpr hne
    refine ⟨?_, ?_, ?_, ?_⟩
    · rw [save_gradebook_snd_overall_score]
      simp only [buildGradebookDoc, gradeLoop_spec]
      rw [if_pos hpos]
    · rw [save_gradebook_snd_overall_grade]
      simp only [buildGradebookDoc, gradeLoop_spec]
      rw [if_pos hpos]
    · rw [save_gradebook_snd_overall_points]
      simp only [buildGradebookDoc, gradeLoop_spec]
      rw [if_pos hpos]
    · rw [save_gradebook_snd_overall_domain]
      simp only [buildGradebookDoc, gradeLoop_spec]
      rw [if_pos hpos]
  · intro hempty
    rw [save_gradebook_snd_overall_score]
    simp only [buildGradebookDoc, gradeLoop_spec, hempty]
    norm_num
    with_unfolding_all decide

/-- Witness for `overall_score_is_simple_mean` at a two-subject save and
at an empty save. -/
theorem overall_score_is_simple_mean_witness :
    (save_gradebook [] tEntry80 tTeacher "t1" "g1").2.overall_score =
      round2 ((tEntry80.subjects.map (fun s => (processSubject s).score)).sum /
        (tEntry80.subjects.length : ℚ)) ∧
    (save_gradebook [] tEntryEmpty tTeacher "t1" "g1").2.overall_score = 0 :=
  ⟨((overall_score_is_simple_mean [] tEntry80 tTeacher "t1" "g1").2.1
      (by simp [tEntry80])).1,
   (overall_score_is_simple_mean [] tEntryEmpty tTeacher "t1" "g1").2.2 rfl⟩

/-! ## C7 -/

/-- C7: a superuser principal passes every role check and every permission
check unconditionally; a non-superuser passes a role-gated operation iff
their role is in the allow-list (otherwise a 403 is raised) and passes a
permission-gated operation iff the required permission is in their
permission set (otherwise a 403 is raised). -/
theorem superuser_bypass_and_allow_lists
    (u : UserDoc) (allowed_roles : List String) (p : String) :
    (u.role = "superuser" →
      require_roles allowed_roles u = .ok u ∧ require_permission p u = .ok u) ∧
    (u.role ≠ "superuser" →
      (require_roles allowed_roles u = .ok u ↔ u.role ∈ allowed_roles) ∧
      (u.role ∉ allowed_roles →
        require_roles allowed_roles u = .error ⟨403, "Insufficient permissions"⟩) ∧
      (require_permission p u = .ok u ↔ p ∈ u.permissions) ∧
      (p ∉ u.permissions →
        require_permission p u = .error ⟨403, "Permission denied: " ++ p⟩)) := by
  constructor
  · intro h
    constructor <;> simp [require_roles, require_permission, h]
  · intro h
    have hb : (u.role == "superuser") = false := beq_eq_false_iff_ne.mpr h
    refine ⟨?_, ?_, ?_, ?_⟩
    · by_cases hm : u.role ∈ allowed_roles <;>
        simp [require_roles, hb, hm]
    · intro hm
      simp [require_roles, hb, hm]
    · by_cases hm : p ∈ u.permissions <;>
        simp [require_permission, hb, hm]
    · intro hm
      simp [require_permission, hb, hm]

/-- Witness for `superuser_bypass_and_allow_lists`: the sample superuser
passes a role gate naming only admins, the sample teacher passes a
permission gate they hold and fails one they lack. -/
theorem superuser_bypass_witness :
    require_roles ["admin"] tSuper = .ok tSuper ∧
    require_permission "manage_grades" tTeacher = .ok tTeacher ∧
    require_permission "manage_schools" tTeacher =
      .error ⟨403, "Permission denied: " ++ "manage_schools"⟩ :=
  ⟨((superuser_bypass_and_allow_lists tSuper ["admin"] "x").1 rfl).1,
   ((superuser_bypass_and_allow_lists tTeacher [] "manage_grades").2
      (by decide)).2.2.1.mpr (by decide),
   ((superuser_bypass_and_allow_lists tTeacher [] "manage_schools").2
      (by decide)).2.2.2 (by decide)⟩

/-! ## C9 -/

/-- C9 counterexample: which grade table bands a saved subject is not a
per-school configuration.  The same simple-mode score 85 is stored with
grade "A" (general 11-band scheme) under two different schools alike,
while within one school a weighted-mode subject scoring 85 is stored with
grade "B+" (MHPS 8-band scheme): the table is selected by the subject's
mode, never by the school. -/
theorem scale_not_per_school_counterexample :
    tTeacher.school_code ≠ tTeacherB.school_code ∧
    (save_gradebook [] tEntrySimple85 tTeacher "t1" "g1").2.subjects.map
      (fun x => x.grade) = ["A"] ∧
    (save_gradebook [] tEntrySimple85 tTeacherB "t1" "g1").2.subjects.map
      (fun x => x.grade) = ["A"] ∧
    (save_gradebook [] tEntryWeighted85 tTeacher "t1" "g1").2.subjects.map
      (fun x => x.grade) = ["B+"] ∧
    (get_grade_info (85:ℚ)).grade = "A" ∧
    (get_mhps_grade (some (85:ℚ))).grade = "B+" := by
  with_unfolding_all decide

/-- C9 (amended): the grade table used by gradebook save is selected per
subject by its mode, not by any per-school configuration: the processed
subject list is identical whichever principal (and so whichever school)
saves it, a subject with any assessment component present is banded by the
fixed MHPS 8-band scale, and a subject without components is banded by the
fixed general 11-band scheme. -/
theorem scale_selected_by_mode_not_school
    (store1 store2 : List GDoc) (e : GradebookEntryIn) (u1 u2 : UserDoc)
    (now1 now2 nid1 nid2 : String) :
    ((save_gradebook store1 e u1 now1 nid1).2.subjects =
      (save_gradebook store2 e u2 now2 nid2).2.subjects) ∧
    (∀ subj, hasMhpsComponents subj = true →
      (processSubject subj).grade =
        (get_mhps_grade (some (calculate_mhps_weighted_score subj))).grade) ∧
    (∀ subj, hasMhpsComponents subj = false →
      (processSubject subj).grade = (get_grade_info (subj.score.getD 0)).grade) := by
  refine ⟨?_, ?_, ?_⟩
  · rw [save_gradebook_snd_subjects, save_gradebook_snd_subjects]
    simp only [buildGradebookDoc]
  · intro subj h
    simp [processSubject, h]
  · intro subj h
    simp [processSubject, h]

/-- Witness for `scale_selected_by_mode_not_school` at the concrete
fixtures: saves under school AAAA and school BBBB store identical subject
lists, and the two mode branches band via their respective tables. -/
theorem scale_selected_by_mode_witness :
    ((save_gradebook [] tEntrySimple85 tTeacher "t1" "g1").2.subjects =
      (save_gradebook [] tEntrySimple85 tTeacherB "t2" "g2").2.subjects) ∧
    (processSubject tSubjWeighted85).grade =
      (get_mhps_grade (some (calculate_mhps_weighted_score tSubjWeighted85))).grade ∧
    (processSubject tSubjSimple85).grade =
      (get_grade_info (tSubjSimple85.score.getD 0)).grade :=
  ⟨(scale_selected_by_mode_not_school [] [] tEntrySimple85 tTeacher tTeacherB
      "t1" "t2" "g1" "g2").1,
   (scale_selected_by_mode_not_school [] [] tEntrySimple85 tTeacher tTeacherB
      "t1" "t2" "g1" "g2").2.1 tSubjWeighted85 rfl,
   (scale_selected_by_mode_not_school [] [] tEntrySimple85 tTeacher tTeacherB
      "t1" "t2" "g1" "g2").2.2 tSubjSimple85 rfl⟩

/-! ## C6 -/

theorem login_fst (st : AuthState) (c : Credentials) : (login st c).1 = st := by
  simp only [login]
  cases List.find? (fun s => s.school_code == strUpper c.school_code && s.is_active)
      st.schools with
  | none => rfl
  | some sch =>
    cases List.find? (fun u =>
        u.username == c.username && u.school_code == strUpper c.school_code) st.users with
    | some user =>
      cases hv : verify_password c.password user.password_hash <;> simp [hv]
    | none =>
      cases List.find? (fun u =>
          u.username == c.username && u.role == "superuser") st.users with
      | some su =>
        cases hv : verify_password c.password su.password_hash <;> simp [hv]
      | none => rfl

/-- C6 counterexample: the claim fails when the requested school holds a
user account with the superuser's username.  In `tStateCollision` school
BBBB is active, the superuser's home school JTECH differs from BBBB and
the superuser's password is presented, yet login fails with "Invalid
credentials" because the school-scoped lookup finds BBBB's own user
"root" first. -/
theorem superuser_login_collision_counterexample :
    tSuper ∈ tStateCollision.users ∧
    tSuper.role = "superuser" ∧
    tSuper.school_code = "JTECH" ∧
    strUpper tCredsSuper.school_code = "BBBB" ∧
    tSuper.school_code ≠ strUpper tCredsSuper.school_code ∧
    tStateCollision.schools.find?
      (fun s => s.school_code == strUpper tCredsSuper.school_code && s.is_active) =
      some tSchoolB ∧
    verify_password tCredsSuper.password tSuper.password_hash = true ∧
    (login tStateCollision tCredsSuper).2 = .error ⟨401, "Invalid credentials"⟩ := by
  decide

/-- C6 (amended): a superuser login presenting an active school different
from the superuser's home school succeeds with the superuser's password
*provided no account with the same username exists in the requested
school*; the issued token's `school_code` claim and the resolved
principal's `school_code` equal the requested school, and the user store
(including the superuser's document) is left unchanged. -/
theorem superuser_cross_school_login
    (st : AuthState) (c : Credentials) (sch : SchoolDoc) (su : UserDoc)
    (hschool : st.schools.find?
      (fun s => s.school_code == strUpper c.school_code && s.is_active) = some sch)
    (hnouser : st.users.find?
      (fun u => u.username == c.username && u.school_code == strUpper c.school_code) = none)
    (hsuper : st.users.find?
      (fun u => u.username == c.username && u.role == "superuser") = some su)
    (hpw : verify_password c.password su.password_hash = true)
    (hbyid : st.users.find? (fun u => u.id == su.id) = some su)
    (hne : strUpper c.school_code ≠ "") :
    (login st c).1 = st ∧
    (login st c).2 = .ok
      { access_token :=
          { sub := some su.id, role := su.role,
            school_code := some (strUpper c.school_code) },
        user :=
          { id := su.id, username := su.username, name := su.name,
            role := su.role, school_code := strUpper c.school_code,
            permissions := su.permissions, created_at := su.created_at } } ∧
    (∃ resolved, get_current_user st.users (.ok
        { sub := some su.id, role := su.role,
          school_code := some (strUpper c.school_code) }) = .ok resolved ∧
      resolved.school_code = strUpper c.school_code ∧
      resolved.id = su.id) := by
  refine ⟨login_fst st c, ?_, ?_⟩
  · simp only [login, hschool, hnouser, hsuper, hpw, if_true]
  · refine ⟨{ su with school_code := strUpper c.school_code }, ?_, rfl, rfl⟩
    have hb : (strUpper c.school_code == "") = false := beq_eq_false_iff_ne.mpr hne
    simp only [get_current_user, hbyid, hb, Bool.false_eq_true, if_false]

/-- Witness for `superuser_cross_school_login` at the collision-free
state `tStateClean`. -/
theorem superuser_cross_school_login_witness :
    (login tStateClean tCredsSuper).1 = tStateClean ∧
    (login tStateClean tCredsSuper).2 = .ok
      { access_token :=
          { sub := some tSuper.id, role := tSuper.role,
            school_code := some (strUpper tCredsSuper.school_code) },
        user :=
          { id := tSuper.id, username := tSuper.username, name := tSuper.name,
            role := tSuper.role, school_code := strUpper tCredsSuper.school_code,
            permissions := tSuper.permissions, created_at := tSuper.created_at } } ∧
    (∃ resolved, get_current_user tStateClean.users (.ok
        { sub := some tSuper.id, role := tSuper.role,
          school_code := some (strUpper tCredsSuper.school_code) }) = .ok resolved ∧
      resolved.school_code = strUpper tCredsSuper.school_code ∧
      resolved.id = tSuper.id) :=
  superuser_cross_school_login tStateClean tCredsSuper tSchoolB tSuper
    (by decide) (by decide) (by decide) (by decide) (by decide) (by decide)

/-! ## C8 -/

/-- C8: the single-student report card returns the 404 "Student not
found" error exactly when no student with the requested id exists in the
caller's session school (so a cross-tenant student is indistinguishable
from an absent one); a parent whose user id differs from the student's
`parent_id` gets the 403 "Access denied" error; and a missing gradebook
entry is not an error — the report is returned with an empty grades
object. -/
theorem report_card_not_found_parent_guard
    (st : ReportState) (user : UserDoc) (sid tm yr : String)
    (age_of : String → ℤ) :
    (get_student_report_card st user sid tm yr age_of =
        .error ⟨404, "Student not found"⟩ ↔
      ∀ s ∈ st.students, ¬(s.id = sid ∧ s.school_code = user.school_code)) ∧
    (∀ s, st.students.find?
        (fun s => s.id == sid && s.school_code == user.school_code) = some s →
      user.role = "parent" → s.parent_id ≠ some user.id →
      get_student_report_card st user sid tm yr age_of =
        .error ⟨403, "Access denied"⟩) ∧
    (∀ s, st.students.find?
        (fun s => s.id == sid && s.school_code == user.school_code) = some s →
      ¬(user.role = "parent" ∧ s.parent_id ≠ some user.id) →
      st.gradebook.find? (fun g => g.student_id == sid && g.term == tm &&
        g.academic_year == yr && g.school_code == user.school_code) = none →
      ∃ r, get_student_report_card st user sid tm yr age_of = .ok r ∧
        r.grades = none) := by
  refine ⟨?_, ?_, ?_⟩
  · cases hfind : st.students.find?
        (fun s => s.id == sid && s.school_code == user.school_code) with
    | none =>
      simp only [get_student_report_card, hfind]
      constructor
      · intro _ s hs
        have hx := List.find?_eq_none.mp hfind s hs
        simpa using hx
      · intro _
        trivial
    | some s =>
      simp only [get_student_report_card, hfind]
      constructor
      · intro h
        split at h <;> simp at h
      · intro hall
        have hmem := List.mem_of_find?_eq_some hfind
        have hpred := List.find?_some hfind
        simp only [Bool.and_eq_true, beq_iff_eq] at hpred
        exact absurd hpred (hall s hmem)
  · intro s hfind hrole hpar
    have hb : (s.parent_id == some user.id) = false := beq_eq_false_iff_ne.mpr hpar
    simp [get_student_report_card, hfind, hrole, hb, bne]
  · intro s hfind hnot hgb
    have hcond : (user.role == "parent" && s.parent_id != some user.id) = false := by
      by_cases hr : user.role = "parent"
      · have hp : s.parent_id = some user.id := by
          by_contra hp
          exact hnot ⟨hr, hp⟩
        simp [hp]
      · simp [beq_eq_false_iff_ne.mpr hr]
    simp only [get_student_report_card, hfind, hcond, Bool.false_eq_true, if_false]
    exact ⟨_, rfl, by simpa using hgb⟩

/-- Witness for `report_card_not_found_parent_guard`: an unknown student
id yields 404, the mismatched parent is denied, and the owned-student
request with no gradebook entry succeeds with empty grades. -/
theorem report_card_errors_witness :
    get_student_report_card tReportState tTeacher "nope" "Term 1" "2024-2025"
      (fun _ => (9:ℤ)) = .error ⟨404, "Student not found"⟩ ∧
    get_student_report_card tReportState tParentOther "st1" "Term 1" "2024-2025"
      (fun _ => (9:ℤ)) = .error ⟨403, "Access denied"⟩ ∧
    (∃ r, get_student_report_card tReportState tTeacher "st1" "Term 1" "2024-2025"
      (fun _ => (9:ℤ)) = .ok r ∧ r.grades = none) :=
  ⟨(report_card_not_found_parent_guard tReportState tTeacher "nope" "Term 1"
      "2024-2025" (fun _ => (9:ℤ))).1.mpr (by decide),
   (report_card_not_found_parent_guard tReportState tParentOther "st1" "Term 1"
      "2024-2025" (fun _ => (9:ℤ))).2.1 tStudent (by decide) rfl (by decide),
   (report_card_not_found_parent_guard tReportState tTeacher "st1" "Term 1"
      "2024-2025" (fun _ => (9:ℤ))).2.2 tStudent (by decide)
     (by decide) (by decide)⟩

/-! ## C5 -/

theorem cardLe_trans (a b c : ClassCard)
    (h1 : decide (cardScore b ≤ cardScore a) = true)
    (h2 : decide (cardScore c ≤ cardScore b) = true) :
    decide (cardScore c ≤ cardScore a) = true := by
  simp only [decide_eq_true_eq] at h1 h2 ⊢
  exact le_trans h2 h1

theorem cardLe_total (a b : ClassCard) :
    (decide (cardScore b ≤ cardScore a) || decide (cardScore a ≤ cardScore b)) = true := by
  simp only [Bool.or_eq_true, decide_eq_true_eq]
  exact le_total _ _

theorem assignPositions_map_snd (l : List ClassCard) :
    (assignPositions l).map Prod.snd = l := by
  simp only [assignPositions, List.map_map]
  have h : (Prod.snd ∘ fun p : ℕ × ClassCard => (p.1 + 1, p.2)) =
      (Prod.snd : ℕ × ClassCard → ClassCard) := rfl
  rw [h]
  exact List.enumFrom_map_snd 0 l

theorem assignPositions_map_fst (l : List ClassCard) :
    (assignPositions l).map Prod.fst = List.range' 1 l.length := by
  simp only [assignPositions, List.map_map]
  have h : (Prod.fst ∘ fun p : ℕ × ClassCard => (p.1 + 1, p.2)) =
      ((fun i => 1 + i) ∘ (Prod.fst : ℕ × ClassCard → ℕ)) := by
    funext p
    simp [Nat.add_comm]
  rw [h, ← List.map_map]
  rw [show l.enum = List.enumFrom 0 l from rfl, List.enumFrom_map_fst 0 l,
    List.map_add_range' 1 0 l.length 1]

theorem assignPositions_length (l : List ClassCard) :
    (assignPositions l).length = l.length := by
  simp [assignPositions]

/-- C5: in every class report, the cards are the fetched cards reordered
into descending order of `overall_score` (a missing gradebook entry
counting as score 0), the reordering is stable (a pair of cards in fetch
order with equal scores stays in that order), and each card is assigned
the 1-based position equal to its index: the positions list is exactly
`[1, ..., n]`. -/
theorem class_ranking_sorted_stable_positions
    (st : ReportState) (u : UserDoc) (cid tm yr : String) (age_of : String → ℤ)
    (rep : ClassReport)
    (hok : get_class_report_cards st u cid tm yr age_of = .ok rep) :
    ((rep.report_cards.map Prod.snd).Perm
      ((st.students.filter (fun s => s.class_id == some cid &&
        s.school_code == u.school_code)).map (mkClassCard st u tm yr age_of))) ∧
    ((rep.report_cards.map Prod.snd).Pairwise
      (fun a b => cardScore b ≤ cardScore a)) ∧
    (∀ a b, List.Sublist [a, b]
        ((st.students.filter (fun s => s.class_id == some cid &&
          s.school_code == u.school_code)).map (mkClassCard st u tm yr age_of)) →
      cardScore a = cardScore b →
      List.Sublist [a, b] (rep.report_cards.map Prod.snd)) ∧
    (∀ c : ClassCard, c.grades = none → cardScore c = 0) ∧
    (rep.report_cards.map Prod.fst = List.range' 1 rep.report_cards.length) := by
  have hrep : rep.report_cards = assignPositions (sortReportCards
      ((st.students.filter (fun s => s.class_id == some cid &&
        s.school_code == u.school_code)).map (mkClassCard st u tm yr age_of))) := by
    unfold get_class_report_cards at hok
    split at hok
    · exact Except.noConfusion hok
    · injection hok with h
      subst h
      rfl
  rw [hrep, assignPositions_map_snd]
  refine ⟨?_, ?_, ?_, ?_, ?_⟩
  · exact List.mergeSort_perm _ _
  · exact (List.sorted_mergeSort cardLe_trans cardLe_total _).imp
      (fun h => by simpa using h)
  · intro a b hsub heq
    exact List.pair_sublist_mergeSort cardLe_trans cardLe_total
      (by simp [heq]) hsub
  · intro c h
    simp [cardScore, h]
  · rw [assignPositions_map_fst, assignPositions_length]

/-- Witness for `class_ranking_sorted_stable_positions`: three students
with scores `[70, 95, 95]` in fetch order are ranked 95, 95, 70 — the two
tied students keep fetch order at the adjacent positions 1 and 2, the
70-scorer is placed last at position 3. -/
theorem class_ranking_witness :
    get_class_report_cards tClassState tTeacher "c1" "Term 1" "2024-2025"
      (fun _ => (9:ℤ)) = .ok tClassRep ∧
    tClassRep.report_cards.map Prod.fst = List.range' 1 tClassRep.report_cards.length ∧
    (tClassRep.report_cards.map Prod.snd).Pairwise
      (fun a b => cardScore b ≤ cardScore a) :=
  have hok : get_class_report_cards tClassState tTeacher "c1" "Term 1" "2024-2025"
      (fun _ => (9:ℤ)) = .ok tClassRep := by with_unfolding_all decide
  ⟨hok,
   (class_ranking_sorted_stable_positions tClassState tTeacher "c1" "Term 1"
      "2024-2025" (fun _ => (9:ℤ)) tClassRep hok).2.2.2.2,
   (class_ranking_sorted_stable_positions tClassState tTeacher "c1" "Term 1"
      "2024-2025" (fun _ => (9:ℤ)) tClassRep hok).2.1⟩

end SMS
